import Mathlib

/-
  Verification development for the STM32WB BLE gateway AT-protocol engine.
  The definitions below are shallow embeddings of the C sources
  (App/BLE_Gateway/Src/at_command.c and App/BLE_Gateway/Src/module_mode.c):
  machine integers become Nat with explicit mod where wraparound matters,
  C strings become List Char (reads past the terminator are modelled by a
  default null character), mutable module state becomes explicit state
  records, and outbound UART writes plus collaborator invocations become an
  event list.
-/

namespace BLEGW

/- ===== C-style helpers ===== -/

def wrap32 (x : Nat) : Nat := x % 4294967296

/-- Unsigned 32-bit subtraction as C computes it for tick differences. -/
def sub32 (a b : Nat) : Nat := (wrap32 a + 4294967296 - wrap32 b) % 4294967296

def nullChar : Char := Char.ofNat 0

/-- Read a character of a C string; positions at or past the end read the
    null terminator (the buffers in question are null padded). -/
def charAt (s : List Char) (i : Nat) : Char := s.getD i nullChar

/- ===== at_command.c static helpers ===== -/

/-- Embedding of ParseUInt16 loop: accumulate decimal digits, 0 on overflow
    past 0xFFFF, stop at the first non-digit. -/
def ParseUInt16_loop : List Char → Nat → Nat
  | [], val => val
  | c :: cs, val =>
    if 48 ≤ c.toNat ∧ c.toNat ≤ 57 then
      let val2 := val * 10 + (c.toNat - 48)
      if val2 > 0xFFFF then 0 else ParseUInt16_loop cs val2
    else val

/-- Embedding of ParseUInt16 (at_command.c): parsed value, or 0 if invalid. -/
def ParseUInt16 (s : List Char) : Nat :=
  if s = [] then 0 else ParseUInt16_loop s 0

/-- Embedding of ParseUInt8 loop: accumulate decimal digits, 0xFF on
    overflow past 0xFF, stop at the first non-digit. -/
def ParseUInt8_loop : List Char → Nat → Nat
  | [], val => val
  | c :: cs, val =>
    if 48 ≤ c.toNat ∧ c.toNat ≤ 57 then
      let val2 := val * 10 + (c.toNat - 48)
      if val2 > 0xFF then 0xFF else ParseUInt8_loop cs val2
    else val

/-- Embedding of ParseUInt8 (at_command.c): parsed value, or 0xFF if invalid. -/
def ParseUInt8 (s : List Char) : Nat :=
  if s = [] then 0xFF else ParseUInt8_loop s 0

/-- Embedding of SkipToComma: the suffix after the first comma, or none. -/
def SkipToComma : List Char → Option (List Char)
  | [] => none
  | c :: cs => if c = ',' then some cs else SkipToComma cs

/-- Embedding of ParseHexNibble: 0..15 for a hex digit, 0xFF otherwise. -/
def ParseHexNibble (c : Char) : Nat :=
  if 48 ≤ c.toNat ∧ c.toNat ≤ 57 then c.toNat - 48
  else if 65 ≤ c.toNat ∧ c.toNat ≤ 70 then c.toNat - 65 + 10
  else if 97 ≤ c.toNat ∧ c.toNat ≤ 102 then c.toNat - 97 + 10
  else 0xFF

/-- Embedding of the while loop of ParseHexString: consume pairs of
    characters while at least two remain and the output index is below
    max_len; an unpaired trailing character is the post-loop error case. -/
def ParseHexString_loop (max_len : Nat) : List Char → Nat → Option (List Nat)
  | c0 :: c1 :: rest, i =>
    if i < max_len then
      let hi := ParseHexNibble c0
      let lo := ParseHexNibble c1
      if hi = 0xFF ∨ lo = 0xFF then none
      else
        match ParseHexString_loop max_len rest (i + 1) with
        | none => none
        | some bs => some ((hi * 16 + lo) :: bs)
    else some []
  | [_], _ => none
  | [], _ => some []

/-- Embedding of ParseHexString (at_command.c): none models the -1 error
    return, some bs models success with bs the parsed bytes. -/
def ParseHexString (hex_str : List Char) (max_len : Nat) : Option (List Nat) :=
  if max_len = 0 then none
  else if hex_str.length % 2 ≠ 0 then none
  else if hex_str.length / 2 > max_len then none
  else ParseHexString_loop max_len hex_str 0

/-- Embedding of the inline nibble parse used by ParseMACString; none
    models the early -1 return on a non-hex character. -/
def macNibble (c : Char) : Option Nat :=
  if 48 ≤ c.toNat ∧ c.toNat ≤ 57 then some (c.toNat - 48)
  else if 65 ≤ c.toNat ∧ c.toNat ≤ 70 then some (c.toNat - 65 + 10)
  else if 97 ≤ c.toNat ∧ c.toNat ≤ 102 then some (c.toNat - 97 + 10)
  else none

/-- Embedding of the for loop of ParseMACString: i is the current group
    index, n the number of groups still to parse. -/
def ParseMACString_loop (s : List Char) : Nat → Nat → Option (List Nat)
  | _, 0 => some []
  | i, n + 1 =>
    match macNibble (charAt s (i * 3)), macNibble (charAt s (i * 3 + 1)) with
    | some hi, some lo =>
      if i < 5 ∧ charAt s (i * 3 + 2) ≠ ':' then none
      else
        match ParseMACString_loop s (i + 1) n with
        | some bs => some ((hi * 16 + lo) :: bs)
        | none => none
    | _, _ => none

/-- Embedding of ParseMACString (at_command.c): none models the -1 error
    return, some gives the six parsed octets most significant group first. -/
def ParseMACString (s : List Char) : Option (List Nat) :=
  ParseMACString_loop s 0 6

/- ===== printf style formatting used by AT_Response_Send call sites ===== -/

def decDigit (n : Nat) : Char := Char.ofNat (48 + n % 10)

def natDecAux : Nat → Nat → List Char → List Char
  | 0, _, acc => acc
  | fuel + 1, n, acc =>
    if n < 10 then decDigit n :: acc else natDecAux fuel (n / 10) (decDigit n :: acc)

/-- Decimal rendering of a Nat, as %d or %lu produce for nonnegative
    values; the fuel n + 1 always exceeds the digit count. -/
def natDec (n : Nat) : String := ⟨natDecAux (n + 1) n []⟩

/-- Decimal rendering of an Int, as %d produces. -/
def intDec (i : Int) : String := if i < 0 then "-" ++ natDec i.natAbs else natDec i.natAbs

def hexDigitU : Nat → Char
  | 0 => '0' | 1 => '1' | 2 => '2' | 3 => '3' | 4 => '4'
  | 5 => '5' | 6 => '6' | 7 => '7' | 8 => '8' | 9 => '9'
  | 10 => 'A' | 11 => 'B' | 12 => 'C' | 13 => 'D' | 14 => 'E'
  | _ => 'F'

/-- %02X of a byte value. -/
def hex2 (b : Nat) : String := ⟨[hexDigitU (b / 16 % 16), hexDigitU (b % 16)]⟩

/-- %04X of a 16-bit value. -/
def hex4 (h : Nat) : String :=
  ⟨[hexDigitU (h / 4096 % 16), hexDigitU (h / 256 % 16), hexDigitU (h / 16 % 16), hexDigitU (h % 16)]⟩

/-- The %02X:%02X:%02X:%02X:%02X:%02X rendering applied to mac[5]..mac[0]. -/
def macFmtRev (mac : List Nat) : String :=
  hex2 (mac.getD 5 0) ++ ":" ++ hex2 (mac.getD 4 0) ++ ":" ++ hex2 (mac.getD 3 0) ++ ":" ++
  hex2 (mac.getD 2 0) ++ ":" ++ hex2 (mac.getD 1 0) ++ ":" ++ hex2 (mac.getD 0 0)

/- ===== Device records and the collaborator environment ===== -/

/-- Device record as consumed read-only from the device manager. -/
structure BLE_Device where
  mac_addr : List Nat
  rssi : Int
  conn_handle : Nat
  is_connected : Bool
  name : String
  deriving DecidableEq

/-- Results returned by the external collaborators (BLE stack, config,
    system, power); the core under verification only forwards them. -/
structure Env where
  devices : List BLE_Device
  startScanRet : Nat → Int
  stopScanRet : Int
  createConnRet : List Nat → Int
  terminateRet : Nat → Int
  gattReadRet : Nat → Nat → Int
  gattWriteRet : Nat → Nat → List Nat → Int
  enableNotifRet : Nat → Nat → Int
  disableNotifRet : Nat → Nat → Int
  discoverRet : Nat → Int
  hwResetRet : Int
  fwVersion : String
  bleVersion : String
  bdAddr : Option (List Nat)
  uptime : Nat
  setNameRet : Int
  setUARTRet : Int
  setRFRet : Int
  saveRet : Int
  txPowerDbm : Int

/-- Embedding of BLE_DeviceManager_GetDevice: none models a NULL return. -/
def BLE_DeviceManager_GetDevice (env : Env) (idx : Nat) : Option BLE_Device :=
  env.devices.get? idx

/-- Embedding of BLE_DeviceManager_GetCount. -/
def BLE_DeviceManager_GetCount (env : Env) : Nat := env.devices.length

/-- Embedding of BLE_DeviceManager_FindDevice: index of the first device
    with the given MAC, none models a negative return. -/
def BLE_DeviceManager_FindDevice (env : Env) (mac : List Nat) : Option Nat :=
  env.devices.findIdx? (fun d => d.mac_addr = mac)

/-- An invocation of an external collaborator performed by the core. -/
inductive ExtCall where
  | startScan (duration : Nat)
  | stopScan
  | clearDevices
  | createConnection (mac : List Nat)
  | terminateConnection (conn : Nat)
  | gattRead (conn handle : Nat)
  | gattWrite (conn handle : Nat) (data : List Nat)
  | enableNotif (conn handle : Nat)
  | disableNotif (conn handle : Nat)
  | discoverServices (conn : Nat)
  | softwareReset
  | hardwareReset
  | factoryReset
  | setDeviceName (name : List Char)
  | setUART (baud parity stop : Nat)
  | applyUART
  | setRF (tx : Int) (si sw : Nat)
  | applyRF
  | saveConfig
  | enterSleep (mode wake timeout : Nat)
  deriving DecidableEq

/-- Observable output of the core: a serial response line written through
    AT_Response_Send, or a collaborator invocation. -/
inductive OutEvent where
  | send (s : String)
  | call (c : ExtCall)
  deriving DecidableEq

/-- The payload bytes handed to GATT characteristic writes, in order. -/
def gattPayload (evs : List OutEvent) : List Nat :=
  evs.foldr
    (fun e acc =>
      match e with
      | .call (.gattWrite _ _ d) => d ++ acc
      | _ => acc) []

/-- True when no collaborator call occurs among the events. -/
def noCalls (evs : List OutEvent) : Bool :=
  evs.all (fun e => match e with | .call _ => false | .send _ => true)

/- ===== module_mode.c state and operations ===== -/

inductive Operation_Mode where
  | MODE_COMMAND
  | MODE_DATA
  deriving DecidableEq

def ESCAPE_SEQ_CHAR : Nat := 43

def ESCAPE_SEQ_LENGTH : Nat := 3

def ESCAPE_GUARD_TIME_MS : Nat := 1000

def DATA_TX_BUFFER_SIZE : Nat := 512

/-- The static state of module_mode.c; data_tx_buffer holds the first
    data_tx_len bytes of the C array. -/
structure ModeState where
  current_mode : Operation_Mode
  target_dev_idx : Nat
  target_char_handle : Nat
  data_tx_buffer : List Nat
  escape_count : Nat
  last_char_time : Nat
  escape_start_time : Nat
  escape_detected : Bool
  deriving DecidableEq

/-- State after startup plus Module_Mode_Init. -/
def Module_Mode_InitState : ModeState :=
  { current_mode := .MODE_COMMAND
    target_dev_idx := 0xFF
    target_char_handle := 0
    data_tx_buffer := []
    escape_count := 0
    last_char_time := 0
    escape_start_time := 0
    escape_detected := false }

mutual

/-- Embedding of Module_Mode_FlushTxBuffer; the fuel bounds the finite
    mutual recursion with Module_Mode_EnterCommand (the inner flush always
    sees an empty buffer, so fuel 4 is never exhausted from the wrappers).
    Result: new state, emitted events, int return value. -/
def Module_Mode_FlushTxBuffer_fuel : Nat → Env → ModeState → ModeState × List OutEvent × Int
  | 0, _, s => (s, [], 0)
  | fuel + 1, env, s =>
    if s.data_tx_buffer.length = 0 then (s, [], 0)
    else if s.current_mode ≠ .MODE_DATA then ({ s with data_tx_buffer := [] }, [], 0)
    else
      match BLE_DeviceManager_GetDevice env s.target_dev_idx with
      | none =>
        let s1 := { s with data_tx_buffer := [] }
        let r := Module_Mode_EnterCommand_fuel fuel env s1
        (r.1, r.2.1, -1)
      | some dev =>
        if ¬ dev.is_connected then
          let s1 := { s with data_tx_buffer := [] }
          let r := Module_Mode_EnterCommand_fuel fuel env s1
          (r.1, r.2.1, -1)
        else
          let ret := env.gattWriteRet dev.conn_handle s.target_char_handle s.data_tx_buffer
          let ev := [OutEvent.call (.gattWrite dev.conn_handle s.target_char_handle s.data_tx_buffer)]
          if ret = 0 then ({ s with data_tx_buffer := [] }, ev, 0)
          else ({ s with data_tx_buffer := [] }, ev, -1)

/-- Embedding of Module_Mode_EnterCommand. -/
def Module_Mode_EnterCommand_fuel : Nat → Env → ModeState → ModeState × List OutEvent × Int
  | 0, _, s => (s, [], 0)
  | fuel + 1, env, s =>
    if s.current_mode = .MODE_COMMAND then (s, [], 0)
    else
      let r := Module_Mode_FlushTxBuffer_fuel fuel env s
      let s2 := { r.1 with
        current_mode := .MODE_COMMAND
        target_dev_idx := 0xFF
        target_char_handle := 0
        escape_count := 0
        escape_detected := false }
      (s2, r.2.1 ++ [OutEvent.send "+CMDMODE\r\n"], 0)

end

def Module_Mode_FlushTxBuffer (env : Env) (s : ModeState) : ModeState × List OutEvent × Int :=
  Module_Mode_FlushTxBuffer_fuel 4 env s

def Module_Mode_EnterCommand (env : Env) (s : ModeState) : ModeState × List OutEvent × Int :=
  Module_Mode_EnterCommand_fuel 4 env s

/-- Embedding of Module_Mode_EnterData; now is the HAL_GetTick value. -/
def Module_Mode_EnterData (env : Env) (s : ModeState) (now dev_idx char_handle : Nat) :
    ModeState × List OutEvent × Int :=
  match BLE_DeviceManager_GetDevice env dev_idx with
  | none => (s, [], -1)
  | some dev =>
    if ¬ dev.is_connected then (s, [], -1)
    else
      ({ s with
          current_mode := .MODE_DATA
          target_dev_idx := dev_idx
          target_char_handle := char_handle
          data_tx_buffer := []
          escape_count := 0
          escape_detected := false
          last_char_time := now },
        [OutEvent.send "+DATAMODE\r\n"], 0)

/-- Common tail of Module_Mode_ProcessDataByte: store the byte (flushing
    first when the buffer is full), update last_char_time, then auto flush
    on the near-full threshold or a large inter-byte gap. -/
def dataByteTail (env : Env) (s : ModeState) (now byte tsl : Nat) : ModeState × List OutEvent :=
  let r1 :=
    if s.data_tx_buffer.length < DATA_TX_BUFFER_SIZE then
      (({ s with data_tx_buffer := s.data_tx_buffer ++ [byte] } : ModeState), ([] : List OutEvent))
    else
      let rf := Module_Mode_FlushTxBuffer env s
      ({ rf.1 with data_tx_buffer := rf.1.data_tx_buffer ++ [byte] }, rf.2.1)
  let s2 := { r1.1 with last_char_time := now }
  if DATA_TX_BUFFER_SIZE - 20 ≤ s2.data_tx_buffer.length ∨ 10 < tsl then
    let rf2 := Module_Mode_FlushTxBuffer env s2
    (rf2.1, r1.2 ++ rf2.2.1)
  else (s2, r1.2)

/-- Embedding of Module_Mode_ProcessDataByte; now is the HAL_GetTick value
    and byte the received UART byte. -/
def Module_Mode_ProcessDataByte (env : Env) (s : ModeState) (now byte : Nat) :
    ModeState × List OutEvent :=
  let tsl := sub32 now s.last_char_time
  if byte = ESCAPE_SEQ_CHAR then
    if s.escape_count = 0 then
      let s1 :=
        if ESCAPE_GUARD_TIME_MS ≤ tsl then
          { s with escape_start_time := now, escape_count := 1 }
        else s
      dataByteTail env s1 now byte tsl
    else if s.escape_count < ESCAPE_SEQ_LENGTH then
      let s1 := { s with escape_count := s.escape_count + 1 }
      if s1.escape_count = ESCAPE_SEQ_LENGTH then
        ({ s1 with escape_detected := true, last_char_time := now }, [])
      else dataByteTail env s1 now byte tsl
    else dataByteTail env s now byte tsl
  else
    let room := DATA_TX_BUFFER_SIZE - s.data_tx_buffer.length
    let s1 :=
      if 0 < s.escape_count ∧ s.escape_count < ESCAPE_SEQ_LENGTH then
        { s with data_tx_buffer := s.data_tx_buffer ++ List.replicate (min s.escape_count room) ESCAPE_SEQ_CHAR }
      else s
    dataByteTail env { s1 with escape_count := 0 } now byte tsl

/-- Embedding of Module_Mode_IsEscapeDetected; clears the pending flag and
    reports true once the trailing guard time has elapsed. -/
def Module_Mode_IsEscapeDetected (s : ModeState) (now : Nat) : ModeState × Bool :=
  if s.escape_detected then
    if ESCAPE_GUARD_TIME_MS ≤ sub32 now s.last_char_time then
      ({ s with escape_detected := false, escape_count := 0 }, true)
    else (s, false)
  else (s, false)

/- ===== at_command.c interrupt line receiver ===== -/

def AT_CMD_MAX_LEN : Nat := 128

def AT_RX_TIMEOUT_MS : Nat := 500

def AT_MAX_GARBAGE : Nat := 20

/-- The ISR-owned line receiver state; at_line_buf models the whole 128
    byte array as a function from index to stored byte. -/
structure ATState where
  at_line_buf : Nat → Nat
  at_line_idx : Nat
  at_cmd_ready : Bool
  at_garbage_count : Nat
  at_rx_tick : Nat

def bufUpdate (f : Nat → Nat) (i v : Nat) : Nat → Nat :=
  fun n => if n = i then v else f n

/-- State after AT_Command_Init (buffer zeroed by memset). -/
def AT_Command_InitState : ATState :=
  { at_line_buf := fun _ => 0
    at_line_idx := 0
    at_cmd_ready := false
    at_garbage_count := 0
    at_rx_tick := 0 }

/-- Embedding of AT_Command_ReceiveByte, the per-byte ISR handler. -/
def AT_Command_ReceiveByte (s : ATState) (byte : Nat) : ATState :=
  let s := { s with at_rx_tick := wrap32 (s.at_rx_tick + 1) }
  if s.at_cmd_ready then s
  else
    let s :=
      if 0 < s.at_line_idx ∧ AT_RX_TIMEOUT_MS < s.at_rx_tick then
        { s with at_line_idx := 0, at_garbage_count := 0, at_rx_tick := 0 }
      else s
    if byte = 0x0D ∨ byte = 0x0A then
      if 2 ≤ s.at_line_idx then
        { s with
            at_line_buf := bufUpdate s.at_line_buf s.at_line_idx 0
            at_cmd_ready := true
            at_garbage_count := 0
            at_rx_tick := 0 }
      else { s with at_line_idx := 0 }
    else if 0x20 ≤ byte ∧ byte ≤ 0x7E then
      if s.at_line_idx < AT_CMD_MAX_LEN - 1 then
        { s with
            at_line_buf := bufUpdate s.at_line_buf s.at_line_idx byte
            at_line_idx := s.at_line_idx + 1
            at_rx_tick := 0
            at_garbage_count := 0 }
      else s
    else
      let s := { s with at_garbage_count := s.at_garbage_count + 1 }
      if AT_MAX_GARBAGE < s.at_garbage_count then
        { s with at_line_idx := 0, at_garbage_count := 0 }
      else s

/-- Feeding a byte sequence to the ISR handler. -/
def feedBytes (s : ATState) (bs : List Nat) : ATState :=
  bs.foldl AT_Command_ReceiveByte s

/-- The null terminated line currently held in the buffer. -/
def bufLine (s : ATState) : String :=
  ⟨(List.range s.at_line_idx).map (fun i => Char.ofNat (s.at_line_buf i))⟩

/- ===== at_command.c command handlers ===== -/

def AT_SCAN_Handler (env : Env) (duration_ms : Nat) : List OutEvent :=
  if env.startScanRet duration_ms ≠ 0 then
    [.call (.startScan duration_ms), .send "ERROR\r\n"]
  else
    [.call (.startScan duration_ms), .send "OK\r\n"]

def AT_CONNECT_Handler (env : Env) (mac_str : List Char) : List OutEvent :=
  match ParseMACString mac_str with
  | none => [.send "ERROR\r\n"]
  | some mac =>
    match BLE_DeviceManager_FindDevice env mac with
    | none => [.send "+ERROR:NOT_FOUND\r\n"]
    | some _ =>
      if env.createConnRet mac ≠ 0 then
        [.call (.createConnection mac), .send "ERROR\r\n"]
      else
        [.call (.createConnection mac), .send "OK\r\n"]

def AT_DISCONNECT_Handler (env : Env) (dev_idx : Nat) : List OutEvent :=
  match BLE_DeviceManager_GetDevice env dev_idx with
  | none => [.send "+ERROR:NOT_CONNECTED\r\n"]
  | some dev =>
    if ¬ dev.is_connected then [.send "+ERROR:NOT_CONNECTED\r\n"]
    else if env.terminateRet dev.conn_handle ≠ 0 then
      [.call (.terminateConnection dev.conn_handle), .send "ERROR\r\n"]
    else
      [.call (.terminateConnection dev.conn_handle), .send "OK\r\n"]

/-- The +DEV line AT_LIST_Handler prints for device index i. -/
def AT_LIST_devLine (i : Nat) (d : BLE_Device) : String :=
  "+DEV:" ++ natDec i ++ "," ++ macFmtRev d.mac_addr ++ "," ++ intDec d.rssi ++
    ",0x" ++ hex4 d.conn_handle ++ "," ++ (if d.name ≠ "" then d.name else "Unknown") ++ "\r\n"

def AT_LIST_Handler (env : Env) : List OutEvent :=
  let count := BLE_DeviceManager_GetCount env
  [.send ("+LIST:" ++ natDec count ++ "\r\n")] ++
    ((List.range count).map (fun i =>
      match BLE_DeviceManager_GetDevice env i with
      | some d => [OutEvent.send (AT_LIST_devLine i d)]
      | none => [])).flatten ++
    [.send "OK\r\n"]

def AT_READ_Handler (env : Env) (dev_idx char_handle : Nat) : List OutEvent :=
  match BLE_DeviceManager_GetDevice env dev_idx with
  | none => [.send "+ERROR:NOT_CONNECTED\r\n"]
  | some dev =>
    if ¬ dev.is_connected then [.send "+ERROR:NOT_CONNECTED\r\n"]
    else if env.gattReadRet dev.conn_handle char_handle ≠ 0 then
      [.call (.gattRead dev.conn_handle char_handle), .send "ERROR\r\n"]
    else
      [.call (.gattRead dev.conn_handle char_handle), .send "OK\r\n"]

def AT_WRITE_MAX_DATA_LEN : Nat := 64

def AT_WRITE_Handler (env : Env) (dev_idx char_handle : Nat) (data : List Char) : List OutEvent :=
  match BLE_DeviceManager_GetDevice env dev_idx with
  | none => [.send "+ERROR:NOT_CONNECTED\r\n"]
  | some dev =>
    if ¬ dev.is_connected then [.send "+ERROR:NOT_CONNECTED\r\n"]
    else if data = [] then [.send "+ERROR:NO_DATA\r\n"]
    else
      match ParseHexString data AT_WRITE_MAX_DATA_LEN with
      | none => [.send "+ERROR:INVALID_HEX\r\n"]
      | some bs =>
        if bs.length = 0 then [.send "+ERROR:INVALID_HEX\r\n"]
        else if env.gattWriteRet dev.conn_handle char_handle bs ≠ 0 then
          [.call (.gattWrite dev.conn_handle char_handle bs), .send "ERROR\r\n"]
        else
          [.call (.gattWrite dev.conn_handle char_handle bs), .send "OK\r\n"]

def AT_NOTIFY_Handler (env : Env) (dev_idx desc_handle enable : Nat) : List OutEvent :=
  match BLE_DeviceManager_GetDevice env dev_idx with
  | none => [.send "+ERROR:NOT_CONNECTED\r\n"]
  | some dev =>
    if ¬ dev.is_connected then [.send "+ERROR:NOT_CONNECTED\r\n"]
    else
      let c : ExtCall :=
        if enable ≠ 0 then .enableNotif dev.conn_handle desc_handle
        else .disableNotif dev.conn_handle desc_handle
      let ret :=
        if enable ≠ 0 then env.enableNotifRet dev.conn_handle desc_handle
        else env.disableNotifRet dev.conn_handle desc_handle
      if ret ≠ 0 then [.call c, .send "ERROR\r\n"] else [.call c, .send "OK\r\n"]

def AT_DISC_Handler (env : Env) (dev_idx : Nat) : List OutEvent :=
  match BLE_DeviceManager_GetDevice env dev_idx with
  | none => [.send "+ERROR:NOT_CONNECTED\r\n"]
  | some dev =>
    if ¬ dev.is_connected then [.send "+ERROR:NOT_CONNECTED\r\n"]
    else if env.discoverRet dev.conn_handle ≠ 0 then
      [.call (.discoverServices dev.conn_handle), .send "ERROR\r\n"]
    else
      [.call (.discoverServices dev.conn_handle), .send "OK\r\n"]

def AT_INFO_Handler (env : Env) (dev_idx : Nat) : List OutEvent :=
  match BLE_DeviceManager_GetDevice env dev_idx with
  | none => [.send "ERROR\r\n"]
  | some dev => [.send ("+INFO:" ++ macFmtRev dev.mac_addr ++ "\r\n"), .send "OK\r\n"]

def AT_RESET_Handler : List OutEvent :=
  [.send "OK\r\n", .call .softwareReset]

def AT_HWRESET_Handler (env : Env) : List OutEvent :=
  if env.hwResetRet = 0 then [.call .hardwareReset, .send "OK\r\n"]
  else [.call .hardwareReset, .send "+ERROR:NOT_SUPPORTED\r\n"]

def AT_FACTORY_Handler : List OutEvent :=
  [.send "OK\r\n", .call .factoryReset]

def AT_GETINFO_Handler (env : Env) : List OutEvent :=
  [.send ("+FW:" ++ env.fwVersion ++ "\r\n"), .send ("+BLE:" ++ env.bleVersion ++ "\r\n")] ++
    (match env.bdAddr with
     | some a => [OutEvent.send ("+BDADDR:" ++ macFmtRev a ++ "\r\n")]
     | none => []) ++
    [.send ("+UPTIME:" ++ natDec env.uptime ++ " ms\r\n"), .send "OK\r\n"]

def AT_NAME_Handler (env : Env) (name : List Char) : List OutEvent :=
  if name = [] then [.send "ERROR\r\n"]
  else if env.setNameRet = 0 then [.call (.setDeviceName name), .send "OK\r\n"]
  else [.call (.setDeviceName name), .send "ERROR\r\n"]

def AT_COMM_Handler (env : Env) (baud parity stop : Nat) : List OutEvent :=
  if env.setUARTRet = 0 then
    [.call (.setUART baud parity stop), .send "OK\r\n", .call .applyUART]
  else [.call (.setUART baud parity stop), .send "ERROR\r\n"]

def AT_RF_Handler (env : Env) (tx_power : Int) (scan_interval scan_window : Nat) : List OutEvent :=
  if env.setRFRet = 0 then
    [.call (.setRF tx_power scan_interval scan_window), .call .applyRF, .send "OK\r\n"]
  else [.call (.setRF tx_power scan_interval scan_window), .send "ERROR\r\n"]

def AT_SAVE_Handler (env : Env) : List OutEvent :=
  if env.saveRet = 0 then [.call .saveConfig, .send "OK\r\n"]
  else [.call .saveConfig, .send "ERROR\r\n"]

def AT_CMDMODE_Handler (env : Env) (m : ModeState) : ModeState × List OutEvent :=
  let r := Module_Mode_EnterCommand env m
  if r.2.2 = 0 then (r.1, r.2.1 ++ [.send "OK\r\n"])
  else (r.1, r.2.1 ++ [.send "ERROR\r\n"])

def AT_DATAMODE_Handler (env : Env) (m : ModeState) (now dev_idx char_handle : Nat) :
    ModeState × List OutEvent :=
  let r := Module_Mode_EnterData env m now dev_idx char_handle
  if r.2.2 = 0 then (r.1, r.2.1 ++ [.send "OK\r\n"])
  else (r.1, r.2.1 ++ [.send "+ERROR:NOT_CONNECTED\r\n"])

/-- The +DEV line AT_STATUS_Handler prints for device index i. -/
def AT_STATUS_devLine (i : Nat) (d : BLE_Device) : String :=
  "+DEV:" ++ natDec i ++ "," ++ (if d.is_connected then "CONNECTED" else "DISCONNECTED") ++
    ",0x" ++ hex4 d.conn_handle ++ "\r\n"

def AT_STATUS_Handler (env : Env) (dev_idx : Nat) : List OutEvent :=
  if dev_idx = 0xFF then
    let count := BLE_DeviceManager_GetCount env
    [.send ("+STATUS:" ++ natDec count ++ " devices\r\n")] ++
      ((List.range count).map (fun i =>
        match BLE_DeviceManager_GetDevice env i with
        | some d => [OutEvent.send (AT_STATUS_devLine i d)]
        | none => [])).flatten ++
      [.send "OK\r\n"]
  else
    match BLE_DeviceManager_GetDevice env dev_idx with
    | none => [.send "ERROR\r\n"]
    | some d =>
      [.send ("+STATUS:" ++ (if d.is_connected then "CONNECTED" else "DISCONNECTED") ++
          ",0x" ++ hex4 d.conn_handle ++ ",RSSI=" ++ intDec d.rssi ++ "\r\n"),
        .send "OK\r\n"]

def AT_SLEEP_Handler (mode wake_mask timeout_ms : Nat) : List OutEvent :=
  if mode < 1 ∨ mode > 4 then [.send "+ERROR:INVALID_MODE\r\n"]
  else [.send "OK\r\n", .call (.enterSleep mode wake_mask timeout_ms), .send "+WAKE\r\n"]

def AT_WAKE_Handler : List OutEvent :=
  [.send "OK\r\n"]

def AT_DIAG_Handler (env : Env) (dev_idx : Nat) : List OutEvent :=
  match BLE_DeviceManager_GetDevice env dev_idx with
  | none => [.send "ERROR\r\n"]
  | some d =>
    [.send ("+DIAG:RSSI=" ++ intDec d.rssi ++ " dBm\r\n")] ++
      (if d.is_connected then
        [OutEvent.send ("+DIAG:CONN_HANDLE=0x" ++ hex4 d.conn_handle ++ "\r\n"),
          OutEvent.send "+DIAG:STATUS=CONNECTED\r\n"]
      else [OutEvent.send "+DIAG:STATUS=DISCONNECTED\r\n"]) ++
      [.send ("+DIAG:TX_POWER=" ++ intDec env.txPowerDbm ++ " dBm\r\n"), .send "OK\r\n"]

/- ===== at_command.c dispatcher ===== -/

def isTrimChar (c : Char) : Bool := c = '\r' || c = '\n' || c = ' '

/-- The trailing CR, LF and space trimming AT_Command_Process performs. -/
def trimEnd (cs : List Char) : List Char :=
  (cs.reverse.dropWhile isTrimChar).reverse

/-- The int8_t cast applied to the parsed tx_power argument of AT+RF. -/
def toInt8 (v : Nat) : Int :=
  if v % 256 < 128 then ((v % 256 : Nat) : Int) else ((v % 256 : Nat) : Int) - 256

/-- The sequential comparison dispatch chain of AT_Command_Process, in
    source order, applied to the trimmed and validated command. -/
def AT_dispatch (env : Env) (now : Nat) (m : ModeState) (cmd : List Char) :
    ModeState × List OutEvent :=
  if cmd = "AT".data then (m, [.send "OK\r\n"])
  else if cmd.take 7 = "AT+SCAN".data then
    let duration :=
      if charAt cmd 7 = '=' ∧ charAt cmd 8 ≠ nullChar then
        let parsed := ParseUInt16 (cmd.drop 8)
        if parsed > 0 then parsed else 5000
      else 5000
    (m, AT_SCAN_Handler env duration)
  else if cmd = "AT+STOP".data then
    if env.stopScanRet = 0 then (m, [.call .stopScan, .send "OK\r\n"])
    else (m, [.call .stopScan, .send "ERROR\r\n"])
  else if cmd = "AT+CLEAR".data then (m, [.call .clearDevices, .send "OK\r\n"])
  else if cmd.take 7 = "AT+LIST".data then (m, AT_LIST_Handler env)
  else if cmd.take 11 = "AT+CONNECT=".data then (m, AT_CONNECT_Handler env (cmd.drop 11))
  else if cmd.take 14 = "AT+DISCONNECT=".data then
    let idx := ParseUInt8 (cmd.drop 14)
    if idx ≠ 0xFF then (m, AT_DISCONNECT_Handler env idx) else (m, [.send "ERROR\r\n"])
  else if cmd.take 8 = "AT+READ=".data then
    let p := cmd.drop 8
    let idx := ParseUInt8 p
    match SkipToComma p with
    | some p2 =>
      if idx ≠ 0xFF then
        let handle := ParseUInt16 p2
        if handle > 0 then (m, AT_READ_Handler env idx handle) else (m, [.send "ERROR\r\n"])
      else (m, [.send "ERROR\r\n"])
    | none => (m, [.send "ERROR\r\n"])
  else if cmd.take 9 = "AT+WRITE=".data then
    let p := cmd.drop 9
    let idx := ParseUInt8 p
    match SkipToComma p with
    | some p2 =>
      if idx ≠ 0xFF then
        let handle := ParseUInt16 p2
        match SkipToComma p2 with
        | some p3 =>
          if handle > 0 ∧ p3 ≠ [] then (m, AT_WRITE_Handler env idx handle p3)
          else (m, [.send "ERROR\r\n"])
        | none => (m, [.send "ERROR\r\n"])
      else (m, [.send "ERROR\r\n"])
    | none => (m, [.send "ERROR\r\n"])
  else if cmd.take 10 = "AT+NOTIFY=".data then
    let p := cmd.drop 10
    let idx := ParseUInt8 p
    match SkipToComma p with
    | some p2 =>
      if idx ≠ 0xFF then
        let handle := ParseUInt16 p2
        match SkipToComma p2 with
        | some p3 =>
          if handle > 0 then
            let enable := ParseUInt8 p3
            if enable ≠ 0xFF then (m, AT_NOTIFY_Handler env idx handle enable)
            else (m, [.send "ERROR\r\n"])
          else (m, [.send "ERROR\r\n"])
        | none => (m, [.send "ERROR\r\n"])
      else (m, [.send "ERROR\r\n"])
    | none => (m, [.send "ERROR\r\n"])
  else if cmd.take 8 = "AT+DISC=".data then
    let idx := ParseUInt8 (cmd.drop 8)
    if idx ≠ 0xFF then (m, AT_DISC_Handler env idx) else (m, [.send "ERROR\r\n"])
  else if cmd.take 8 = "AT+INFO=".data then
    let idx := ParseUInt8 (cmd.drop 8)
    if idx ≠ 0xFF then (m, AT_INFO_Handler env idx) else (m, [.send "ERROR\r\n"])
  else if cmd = "AT+RESET".data then (m, AT_RESET_Handler)
  else if cmd = "AT+HWRESET".data then (m, AT_HWRESET_Handler env)
  else if cmd = "AT+FACTORY".data then (m, AT_FACTORY_Handler)
  else if cmd = "AT+GETINFO".data then (m, AT_GETINFO_Handler env)
  else if cmd.take 8 = "AT+NAME=".data then (m, AT_NAME_Handler env (cmd.drop 8))
  else if cmd.take 8 = "AT+COMM=".data then
    let p := cmd.drop 8
    let baud := ParseUInt16 p
    match SkipToComma p with
    | some p2 =>
      let parity := ParseUInt8 p2
      match SkipToComma p2 with
      | some p3 => (m, AT_COMM_Handler env baud parity (ParseUInt8 p3))
      | none => (m, [.send "ERROR\r\n"])
    | none => (m, [.send "ERROR\r\n"])
  else if cmd.take 6 = "AT+RF=".data then
    let p := cmd.drop 6
    let tx_power := toInt8 (ParseUInt8 p)
    match SkipToComma p with
    | some p2 =>
      let scan_int := ParseUInt16 p2
      match SkipToComma p2 with
      | some p3 => (m, AT_RF_Handler env tx_power scan_int (ParseUInt16 p3))
      | none => (m, [.send "ERROR\r\n"])
    | none => (m, [.send "ERROR\r\n"])
  else if cmd = "AT+SAVE".data then (m, AT_SAVE_Handler env)
  else if cmd = "AT+CMDMODE".data then AT_CMDMODE_Handler env m
  else if cmd.take 12 = "AT+DATAMODE=".data then
    let p := cmd.drop 12
    let idx := ParseUInt8 p
    match SkipToComma p with
    | some p2 =>
      if idx ≠ 0xFF then
        let handle := ParseUInt16 p2
        if handle > 0 then AT_DATAMODE_Handler env m now idx handle
        else (m, [.send "ERROR\r\n"])
      else (m, [.send "ERROR\r\n"])
    | none => (m, [.send "ERROR\r\n"])
  else if cmd.take 9 = "AT+STATUS".data then
    let idx :=
      if charAt cmd 9 = '=' ∧ charAt cmd 10 ≠ nullChar then ParseUInt8 (cmd.drop 10)
      else 0xFF
    (m, AT_STATUS_Handler env idx)
  else if cmd.take 8 = "AT+SLEEP".data then
    let args :=
      if charAt cmd 8 = '=' ∧ charAt cmd 9 ≠ nullChar then
        let p := cmd.drop 9
        let mode := ParseUInt8 p
        match SkipToComma p with
        | some p2 =>
          let wake := ParseUInt8 p2
          match SkipToComma p2 with
          | some p3 => (mode, wake, ParseUInt16 p3)
          | none => (mode, wake, 0)
        | none => (mode, 1, 0)
      else (1, 1, 0)
    (m, AT_SLEEP_Handler args.1 args.2.1 args.2.2)
  else if cmd = "AT+WAKE".data then (m, AT_WAKE_Handler)
  else if cmd.take 8 = "AT+DIAG=".data then
    let idx := ParseUInt8 (cmd.drop 8)
    if idx ≠ 0xFF then (m, AT_DIAG_Handler env idx) else (m, [.send "ERROR\r\n"])
  else (m, [])

/-- Embedding of AT_Command_Process: validation gate followed by the
    dispatch chain. -/
def AT_Command_Process (env : Env) (now : Nat) (m : ModeState) (cmd_line : String) :
    ModeState × List OutEvent :=
  if cmd_line = "" then (m, [])
  else
    let cmd := trimEnd (cmd_line.data.take (AT_CMD_MAX_LEN - 1))
    if cmd.length < 2 then (m, [])
    else if ¬ ((charAt cmd 0 = 'A' ∨ charAt cmd 0 = 'a') ∧
        (charAt cmd 1 = 'T' ∨ charAt cmd 1 = 't')) then (m, [])
    else AT_dispatch env now m cmd

/-- The trimmed command AT_Command_Process derives from a raw line. -/
def trimmedCmd (line : String) : List Char :=
  trimEnd (line.data.take (AT_CMD_MAX_LEN - 1))

/-- Embedding of AT_Command_ProcessReady: drain the ready line under the
    critical section, then process it outside. -/
def AT_Command_ProcessReady (env : Env) (now : Nat) (s : ATState) (m : ModeState) :
    ATState × ModeState × List OutEvent :=
  if ¬ s.at_cmd_ready then (s, m, [])
  else
    let line := bufLine s
    let s2 := { s with at_line_idx := 0, at_cmd_ready := false }
    let r := AT_Command_Process env now m line
    (s2, r.1, r.2)

/- ===== Spec-side definitions (transcribed from the specification text,
   for comparison against the code embeddings above) ===== -/

/-- Modelled from the spec: the hex alphabet [0-9A-Fa-f]. -/
def isHexChar (c : Char) : Bool :=
  decide ((48 ≤ c.toNat ∧ c.toNat ≤ 57) ∨ (65 ≤ c.toNat ∧ c.toNat ≤ 70) ∨
    (97 ≤ c.toNat ∧ c.toNat ≤ 102))

/-- Modelled from the spec: the standard uppercase hex encoding of a byte
    sequence, two characters per byte. -/
def hexEncode : List Nat → List Char
  | [] => []
  | b :: bs => hexDigitU (b / 16) :: hexDigitU (b % 16) :: hexEncode bs

/-- Upper casing of the six lowercase hex letters, identity elsewhere;
    used to state case insensitivity. -/
def upHexChar (c : Char) : Char :=
  if c = 'a' then 'A' else if c = 'b' then 'B' else if c = 'c' then 'C'
  else if c = 'd' then 'D' else if c = 'e' then 'E' else if c = 'f' then 'F' else c

/-- Modelled from the spec: group k of the colon separated MAC form is two
    hex digits, followed by a colon for the first five groups. -/
def specMACGroupOK (s : List Char) (k : Nat) : Prop :=
  isHexChar (charAt s (k * 3)) = true ∧ isHexChar (charAt s (k * 3 + 1)) = true ∧
    (k < 5 → charAt s (k * 3 + 2) = ':')

/-- Modelled from the spec: the first 17 characters form six colon
    separated 2-digit hex octets. -/
def specMACFormOK (s : List Char) : Prop :=
  ∀ k, k < 6 → specMACGroupOK s k

/-- Invariant of the line receiver: whenever the ready flag is set, the
    buffer holds a null terminated line of length at least 2. -/
def ATInv (s : ATState) : Prop :=
  s.at_cmd_ready = true → 2 ≤ s.at_line_idx ∧ s.at_line_buf s.at_line_idx = 0

/-- One external operation on the mode controller, for quantifying over
    call sequences. -/
inductive ModeOp where
  | procByte (now byte : Nat)
  | flush

/-- Run a sequence of Module_Mode_ProcessDataByte and
    Module_Mode_FlushTxBuffer calls. -/
def runModeOps (env : Env) (ops : List ModeOp) (s : ModeState) : ModeState :=
  ops.foldl
    (fun st op =>
      match op with
      | .procByte now byte => (Module_Mode_ProcessDataByte env st now byte).1
      | .flush => (Module_Mode_FlushTxBuffer env st).1) s

/- ===== Concrete fixtures used by witnesses and counterexamples ===== -/

/-- A collaborator environment where every operation succeeds. -/
def envBase : Env :=
  { devices := []
    startScanRet := fun _ => 0
    stopScanRet := 0
    createConnRet := fun _ => 0
    terminateRet := fun _ => 0
    gattReadRet := fun _ _ => 0
    gattWriteRet := fun _ _ _ => 0
    enableNotifRet := fun _ _ => 0
    disableNotifRet := fun _ _ => 0
    discoverRet := fun _ => 0
    hwResetRet := 0
    fwVersion := "1.0"
    bleVersion := "2.0"
    bdAddr := none
    uptime := 5
    setNameRet := 0
    setUARTRet := 0
    setRFRet := 0
    saveRet := 0
    txPowerDbm := 0 }

def dev0 : BLE_Device :=
  { mac_addr := [0x66, 0x55, 0x44, 0x33, 0x22, 0x11]
    rssi := -40
    conn_handle := 0x21
    is_connected := true
    name := "Foo" }

def dev1 : BLE_Device :=
  { mac_addr := [6, 5, 4, 3, 2, 1]
    rssi := -70
    conn_handle := 0
    is_connected := false
    name := "" }

/-- Environment holding two known devices. -/
def env2 : Env := { envBase with devices := [dev0, dev1] }

/-- Environment for the escape sequence run: one connected device, GATT
    writes succeed. -/
def c1Env : Env := { envBase with devices := [dev0] }

/-- Data mode entered at tick 0 targeting device 0, characteristic 5. -/
def c1S0 : ModeState := (Module_Mode_EnterData c1Env Module_Mode_InitState 0 0 5).1

def c1Step (p : ModeState × List OutEvent) (tb : Nat × Nat) : ModeState × List OutEvent :=
  let r := Module_Mode_ProcessDataByte c1Env p.1 tb.1 tb.2
  (r.1, p.2 ++ r.2)

/-- Guard silence, then the bytes 0x2B 0x2B 0x2B at ticks 1000..1002,
    immediately followed by byte 0x41 at tick 1003. -/
def c1Run : ModeState × List OutEvent :=
  [(1000, 43), (1001, 43), (1002, 43), (1003, 65)].foldl c1Step (c1S0, [])

/-- Environment whose GATT characteristic write fails. -/
def c3Env : Env := { envBase with devices := [dev0], gattWriteRet := fun _ _ _ => 1 }

/-- A data mode state with three buffered bytes targeting device 0. -/
def c3S : ModeState :=
  { Module_Mode_InitState with
      current_mode := .MODE_DATA
      target_dev_idx := 0
      target_char_handle := 5
      data_tx_buffer := [1, 2, 3] }

/-- The state Module_Mode_FlushTxBuffer produces on the disconnected
    target path: buffer cleared and command mode entered. -/
def flushDisconnectedState (s : ModeState) : ModeState :=
  { s with
      data_tx_buffer := []
      current_mode := .MODE_COMMAND
      target_dev_idx := 0xFF
      target_char_handle := 0
      escape_count := 0
      escape_detected := false }

/-- A receiver state holding an unconsumed ready line. -/
def c5State : ATState :=
  { at_line_buf := fun _ => 0
    at_line_idx := 2
    at_cmd_ready := true
    at_garbage_count := 0
    at_rx_tick := 0 }

/-- Modelled from the spec: the decimal value denoted by a digit string. -/
def decimalValue (s : List Char) : Nat :=
  s.foldl (fun a c => a * 10 + (c.toNat - 48)) 0

/- ===================== Theorems ===================== -/

/- ===== C5: bytes are dropped while a ready line is unconsumed ===== -/

/-- C5: while the ready flag is set, every call to AT_Command_ReceiveByte
    leaves the line buffer, the fill index and the ready flag unchanged:
    incoming bytes are dropped rather than overwriting the unconsumed
    line. -/
theorem C5_drop_bytes_when_ready (s : ATState) (b : Nat) (h : s.at_cmd_ready = true) :
    (AT_Command_ReceiveByte s b).at_line_buf = s.at_line_buf ∧
    (AT_Command_ReceiveByte s b).at_line_idx = s.at_line_idx ∧
    (AT_Command_ReceiveByte s b).at_cmd_ready = true := by
  simp [AT_Command_ReceiveByte, h]

/-- C5 witness: the frame condition evaluated at a concrete ready state and
    byte. -/
theorem C5_witness :
    (AT_Command_ReceiveByte c5State 65).at_line_buf = c5State.at_line_buf ∧
    (AT_Command_ReceiveByte c5State 65).at_line_idx = c5State.at_line_idx ∧
    (AT_Command_ReceiveByte c5State 65).at_cmd_ready = true :=
  C5_drop_bytes_when_ready c5State 65 rfl

/- ===== C9: Module_Mode_EnterCommand is idempotent ===== -/

theorem enterCommand_fuel_noop (f : Nat) (env : Env) (s : ModeState)
    (h : s.current_mode = .MODE_COMMAND) :
    Module_Mode_EnterCommand_fuel (f + 1) env s = (s, [], 0) := by
  simp [Module_Mode_EnterCommand_fuel, h]

/-- C9: when the mode is already Command, Module_Mode_EnterCommand returns
    0 at once without flushing, without touching the state and without
    emitting the +CMDMODE notification, so AT_CMDMODE_Handler emits only
    OK. -/
theorem C9_cmdmode_idempotent (env : Env) (m : ModeState)
    (h : m.current_mode = .MODE_COMMAND) :
    Module_Mode_EnterCommand env m = (m, [], 0) ∧
    AT_CMDMODE_Handler env m = (m, [OutEvent.send "OK\r\n"]) := by
  have he : Module_Mode_EnterCommand env m = (m, [], 0) :=
    enterCommand_fuel_noop 3 env m h
  refine ⟨he, ?_⟩
  simp [AT_CMDMODE_Handler, he]

/-- C9 witness: the idempotence evaluated at the initial command mode
    state. -/
theorem C9_witness :
    Module_Mode_EnterCommand envBase Module_Mode_InitState = (Module_Mode_InitState, [], 0) ∧
    AT_CMDMODE_Handler envBase Module_Mode_InitState =
      (Module_Mode_InitState, [OutEvent.send "OK\r\n"]) :=
  C9_cmdmode_idempotent envBase Module_Mode_InitState rfl

/- ===== C4: ready flag invariant of the line receiver ===== -/

theorem receiveByte_of_ready (s : ATState) (b : Nat) (h : s.at_cmd_ready = true) :
    AT_Command_ReceiveByte s b = { s with at_rx_tick := wrap32 (s.at_rx_tick + 1) } := by
  simp [AT_Command_ReceiveByte, h]

theorem receiveByte_preserves_ATInv (s : ATState) (b : Nat) (h : ATInv s) :
    ATInv (AT_Command_ReceiveByte s b) := by
  by_cases hr : s.at_cmd_ready = true
  · rw [receiveByte_of_ready s b hr]
    intro _
    exact h hr
  · have hr' : s.at_cmd_ready = false := by simpa using hr
    simp only [AT_Command_ReceiveByte, hr']
    split_ifs <;> intro hready <;> simp_all [bufUpdate]

theorem feedBytes_preserves_ATInv (bs : List Nat) :
    ∀ s : ATState, ATInv s → ATInv (feedBytes s bs) := by
  induction bs with
  | nil => exact fun s h => h
  | cons b bs ih =>
    intro s h
    exact ih (AT_Command_ReceiveByte s b) (receiveByte_preserves_ATInv s b h)

theorem feedBytes_frozen (bs : List Nat) :
    ∀ s : ATState, s.at_cmd_ready = true →
      (feedBytes s bs).at_line_buf = s.at_line_buf ∧
      (feedBytes s bs).at_line_idx = s.at_line_idx ∧
      (feedBytes s bs).at_cmd_ready = true := by
  induction bs with
  | nil => exact fun s h => ⟨rfl, rfl, h⟩
  | cons b bs ih =>
    intro s h
    have hstep := receiveByte_of_ready s b h
    have hready2 : (AT_Command_ReceiveByte s b).at_cmd_ready = true := by
      rw [hstep]; simpa using h
    have hrec := ih (AT_Command_ReceiveByte s b) hready2
    refine ⟨?_, ?_, hrec.2.2⟩
    · rw [show feedBytes s (b :: bs) = feedBytes (AT_Command_ReceiveByte s b) bs from rfl,
        hrec.1, hstep]
    · rw [show feedBytes s (b :: bs) = feedBytes (AT_Command_ReceiveByte s b) bs from rfl,
        hrec.2.1, hstep]

/-- C4: for every byte sequence fed from the initial state, whenever the
    ready flag is set the buffer holds a null terminated line of length at
    least 2, and the flag stays set with the line intact under any further
    input until the line is drained. -/
theorem C4_ready_line_invariant (bs more : List Nat)
    (h : (feedBytes AT_Command_InitState bs).at_cmd_ready = true) :
    (2 ≤ (feedBytes AT_Command_InitState bs).at_line_idx ∧
      (feedBytes AT_Command_InitState bs).at_line_buf
        (feedBytes AT_Command_InitState bs).at_line_idx = 0) ∧
    (feedBytes (feedBytes AT_Command_InitState bs) more).at_cmd_ready = true ∧
    (feedBytes (feedBytes AT_Command_InitState bs) more).at_line_buf =
      (feedBytes AT_Command_InitState bs).at_line_buf ∧
    (feedBytes (feedBytes AT_Command_InitState bs) more).at_line_idx =
      (feedBytes AT_Command_InitState bs).at_line_idx := by
  have hinv : ATInv (feedBytes AT_Command_InitState bs) :=
    feedBytes_preserves_ATInv bs AT_Command_InitState
      (fun hh => absurd hh (by simp [AT_Command_InitState]))
  have hfr := feedBytes_frozen more (feedBytes AT_Command_InitState bs) h
  exact ⟨hinv h, hfr.2.2, hfr.1, hfr.2.1⟩

/- ===== C6: MAC string parsing ===== -/

theorem macNibble_isSome_iff (c : Char) :
    (macNibble c).isSome = true ↔ isHexChar c = true := by
  simp only [macNibble, isHexChar, decide_eq_true_eq]
  split_ifs with h1 h2 h3 <;> simp <;> omega

theorem macLoop_succ_isSome (s : List Char) (i n : Nat) :
    (ParseMACString_loop s i (n + 1)).isSome = true ↔
      ((macNibble (charAt s (i * 3))).isSome = true ∧
        (macNibble (charAt s (i * 3 + 1))).isSome = true ∧
        (i < 5 → charAt s (i * 3 + 2) = ':') ∧
        (ParseMACString_loop s (i + 1) n).isSome = true) := by
  cases h0 : macNibble (charAt s (i * 3)) with
  | none => simp [ParseMACString_loop, h0]
  | some hi =>
    cases h1 : macNibble (charAt s (i * 3 + 1)) with
    | none => simp [ParseMACString_loop, h0, h1]
    | some lo =>
      by_cases hsep : i < 5 ∧ charAt s (i * 3 + 2) ≠ ':'
      · simp only [ParseMACString_loop, h0, h1, if_pos hsep]
        simp only [Option.isSome_none, Option.isSome_some]
        constructor
        · intro hfalse; cases hfalse
        · rintro ⟨-, -, hcolon, -⟩
          exact absurd (hcolon hsep.1) hsep.2
      · push_neg at hsep
        have hif : ¬ (i < 5 ∧ charAt s (i * 3 + 2) ≠ ':') := by
          rintro ⟨ha, hb⟩; exact hb (hsep ha)
        simp only [ParseMACString_loop, h0, h1, if_neg hif]
        cases hr : ParseMACString_loop s (i + 1) n with
        | none => simp [hr]
        | some bs => simp [hr]; exact hsep

theorem macLoop_isSome_iff (s : List Char) :
    ∀ (n i : Nat), (ParseMACString_loop s i n).isSome = true ↔
      ∀ j, j < n → ((macNibble (charAt s ((i + j) * 3))).isSome = true ∧
        (macNibble (charAt s ((i + j) * 3 + 1))).isSome = true ∧
        (i + j < 5 → charAt s ((i + j) * 3 + 2) = ':')) := by
  intro n
  induction n with
  | zero => intro i; simp [ParseMACString_loop]
  | succ n ih =>
    intro i
    rw [macLoop_succ_isSome, ih (i + 1)]
    constructor
    · rintro ⟨ha, hb, hc, hrest⟩ j hj
      cases j with
      | zero => simpa using ⟨ha, hb, hc⟩
      | succ j =>
        have hstep := hrest j (by omega)
        have hidx : i + 1 + j = i + (j + 1) := by omega
        rw [hidx] at hstep
        exact hstep
    · intro hall
      refine ⟨?_, ?_, ?_, ?_⟩
      · simpa using (hall 0 (by omega)).1
      · simpa using (hall 0 (by omega)).2.1
      · simpa using (hall 0 (by omega)).2.2
      · intro j hj
        have hstep := hall (j + 1) (by omega)
        have hidx : i + (j + 1) = i + 1 + j := by omega
        rw [hidx] at hstep
        exact hstep

/-- C6 amended: ParseMACString accepts exactly the strings whose first 17
    characters form the six colon separated 2-digit hex octets; a wrong
    separator or a non hex digit inside those 17 characters is rejected,
    while characters past position 16 (extra trailing input) are never
    examined. -/
theorem C6_mac_accept_iff (s : List Char) :
    (ParseMACString s).isSome = true ↔ specMACFormOK s := by
  rw [ParseMACString, macLoop_isSome_iff]
  constructor
  · intro h k hk
    have hg := h k hk
    simp only [Nat.zero_add] at hg
    exact ⟨(macNibble_isSome_iff _).1 hg.1, (macNibble_isSome_iff _).1 hg.2.1, hg.2.2⟩
  · intro h j hj
    have hg := h j hj
    simp only [Nat.zero_add]
    exact ⟨(macNibble_isSome_iff _).2 hg.1, (macNibble_isSome_iff _).2 hg.2.1, hg.2.2⟩

/-- C6 counterexample: the 18 character input 11:22:33:44:55:667 is a
    wrong length deviation (extra trailing character), yet ParseMACString
    accepts it and returns the six octets parsed from its first 17
    characters. -/
theorem C6_counterexample :
    ParseMACString "11:22:33:44:55:667".data = some [17, 34, 51, 68, 85, 102] ∧
    ("11:22:33:44:55:667".data).length ≠ 17 := by
  constructor
  · decide
  · decide

/- ===== C7: hex payload parsing ===== -/

theorem parseHexNibble_lt_16 (c : Char) (h : isHexChar c = true) :
    ParseHexNibble c < 16 := by
  simp only [isHexChar, decide_eq_true_eq] at h
  simp only [ParseHexNibble]
  split_ifs <;> omega

theorem parseHexNibble_eq_255 (c : Char) (h : isHexChar c = false) :
    ParseHexNibble c = 0xFF := by
  simp only [isHexChar, decide_eq_false_iff_not] at h
  simp only [ParseHexNibble]
  split_ifs <;> first | rfl | omega

theorem hexDigitU_nibble_eq_up (c : Char) (h : isHexChar c = true) :
    hexDigitU (ParseHexNibble c) = upHexChar c := by
  have hb : c.toNat < 128 := by
    simp only [isHexChar, decide_eq_true_eq] at h; omega
  have key : ∀ n, n < 128 → isHexChar (Char.ofNat n) = true →
      hexDigitU (ParseHexNibble (Char.ofNat n)) = upHexChar (Char.ofNat n) := by decide
  have h2 := key c.toNat hb (by rw [Char.ofNat_toNat]; exact h)
  rwa [Char.ofNat_toNat] at h2

theorem nibble_of_hexDigitU : ∀ n, n < 16 → ParseHexNibble (hexDigitU n) = n := by decide

theorem hexEncode_length : ∀ bs : List Nat, (hexEncode bs).length = 2 * bs.length
  | [] => rfl
  | b :: bs => by simp [hexEncode, hexEncode_length bs]; omega

theorem hexLoop_all_hex : ∀ (s : List Char) (i max_len : Nat),
    s.length % 2 = 0 → i + s.length / 2 ≤ max_len →
    (∀ c ∈ s, isHexChar c = true) →
    ∃ bs, ParseHexString_loop max_len s i = some bs ∧
      hexEncode bs = s.map upHexChar ∧ bs.length = s.length / 2
  | [], i, max_len, _, _, _ =>
    ⟨[], by simp [ParseHexString_loop], by simp [hexEncode], by simp⟩
  | [c], _, _, h, _, _ => by simp at h
  | c0 :: c1 :: rest, i, max_len, heven, hle, hall => by
    have hr2 : rest.length % 2 = 0 := by simp at heven; omega
    have hi : i < max_len := by simp at hle; omega
    have hc0 : isHexChar c0 = true := hall c0 (by simp)
    have hc1 : isHexChar c1 = true := hall c1 (by simp)
    have hn0 : ParseHexNibble c0 < 16 := parseHexNibble_lt_16 c0 hc0
    have hn1 : ParseHexNibble c1 < 16 := parseHexNibble_lt_16 c1 hc1
    obtain ⟨bs, hbs, henc, hlen⟩ :=
      hexLoop_all_hex rest (i + 1) max_len hr2 (by simp at hle ⊢; omega)
        (fun c hc => hall c (by simp [hc]))
    refine ⟨(ParseHexNibble c0 * 16 + ParseHexNibble c1) :: bs, ?_, ?_, ?_⟩
    · simp only [ParseHexString_loop, if_pos hi]
      rw [if_neg (by omega), hbs]
    · have hdiv : (ParseHexNibble c0 * 16 + ParseHexNibble c1) / 16 = ParseHexNibble c0 := by
        omega
      have hmod : (ParseHexNibble c0 * 16 + ParseHexNibble c1) % 16 = ParseHexNibble c1 := by
        omega
      simp only [hexEncode, List.map_cons, hdiv, hmod, henc,
        hexDigitU_nibble_eq_up c0 hc0, hexDigitU_nibble_eq_up c1 hc1]
    · simp [hlen]; omega

theorem hexLoop_encode : ∀ (bs : List Nat) (i max_len : Nat),
    (∀ b ∈ bs, b < 256) → i + bs.length ≤ max_len →
    ParseHexString_loop max_len (hexEncode bs) i = some bs
  | [], i, m, _, _ => by simp [hexEncode, ParseHexString_loop]
  | b :: bs, i, m, hall, hle => by
    have hb : b < 256 := hall b (by simp)
    have h1 : ParseHexNibble (hexDigitU (b / 16)) = b / 16 := nibble_of_hexDigitU _ (by omega)
    have h2 : ParseHexNibble (hexDigitU (b % 16)) = b % 16 := nibble_of_hexDigitU _ (by omega)
    have hi : i < m := by simp at hle; omega
    have hrec := hexLoop_encode bs (i + 1) m (fun x hx => hall x (by simp [hx]))
      (by simp at hle ⊢; omega)
    simp only [hexEncode, ParseHexString_loop, if_pos hi, h1, h2]
    rw [if_neg (by omega), hrec]
    have hbb : b / 16 * 16 + b % 16 = b := by omega
    rw [hbb]

theorem hexLoop_bad : ∀ (s : List Char) (i max_len : Nat),
    s.length % 2 = 0 → i + s.length / 2 ≤ max_len →
    (∃ c ∈ s, isHexChar c = false) →
    ParseHexString_loop max_len s i = none
  | [], _, _, _, _, hbad => by simp at hbad
  | [c], _, _, h, _, _ => by simp at h
  | c0 :: c1 :: rest, i, m, heven, hle, hbad => by
    have hi : i < m := by simp at hle; omega
    by_cases h0 : isHexChar c0 = false
    · simp [ParseHexString_loop, if_pos hi, parseHexNibble_eq_255 c0 h0]
    · by_cases h1 : isHexChar c1 = false
      · simp [ParseHexString_loop, if_pos hi, parseHexNibble_eq_255 c1 h1]
      · have hb : ∃ c ∈ rest, isHexChar c = false := by
          rcases hbad with ⟨c, hc, hcf⟩
          simp only [List.mem_cons] at hc
          rcases hc with rfl | rfl | hc
          · exact absurd hcf h0
          · exact absurd hcf h1
          · exact ⟨c, hc, hcf⟩
        have hrec := hexLoop_bad rest (i + 1) m (by simp at heven; omega)
          (by simp at hle ⊢; omega) hb
        simp only [ParseHexString_loop, if_pos hi, hrec]
        split_ifs <;> rfl

theorem nibble_upHexChar (c : Char) : ParseHexNibble (upHexChar c) = ParseHexNibble c := by
  simp only [upHexChar]
  split_ifs <;> subst_vars <;> rfl

theorem hexLoop_up : ∀ (s : List Char) (i max_len : Nat),
    ParseHexString_loop max_len (s.map upHexChar) i = ParseHexString_loop max_len s i
  | [], _, _ => rfl
  | [c], _, _ => rfl
  | c0 :: c1 :: rest, i, m => by
    simp only [List.map_cons, ParseHexString_loop, nibble_upHexChar,
      hexLoop_up rest (i + 1) m]

/-- C7 amended: on even length strings over the hex alphabet whose decoded
    size fits the output buffer, ParseHexString succeeds and is a left
    inverse of hex encoding (case insensitively); odd length strings and
    strings containing a non alphabet character always fail; strings whose
    decoded size exceeds the buffer are also rejected, which is the added
    restriction over the original claim. -/
theorem C7_hex_decode_props :
    (∀ (s : List Char) (max_len : Nat), 0 < max_len → s.length % 2 = 0 →
      (∀ c ∈ s, isHexChar c = true) → s.length / 2 ≤ max_len →
      ∃ bs, ParseHexString s max_len = some bs ∧ hexEncode bs = s.map upHexChar) ∧
    (∀ (bs : List Nat) (max_len : Nat), 0 < max_len → bs.length ≤ max_len →
      (∀ b ∈ bs, b < 256) → ParseHexString (hexEncode bs) max_len = some bs) ∧
    (∀ (s : List Char) (max_len : Nat), s.length % 2 = 1 → ParseHexString s max_len = none) ∧
    (∀ (s : List Char) (max_len : Nat) (c : Char), c ∈ s → isHexChar c = false →
      ParseHexString s max_len = none) ∧
    (∀ (s : List Char) (max_len : Nat),
      ParseHexString (s.map upHexChar) max_len = ParseHexString s max_len) := by
  refine ⟨?_, ?_, ?_, ?_, ?_⟩
  · intro s max_len hpos heven hall hfit
    obtain ⟨bs, hbs, henc, -⟩ := hexLoop_all_hex s 0 max_len heven (by omega) hall
    refine ⟨bs, ?_, henc⟩
    rw [ParseHexString, if_neg (by omega), if_neg (by omega), if_neg (by omega)]
    exact hbs
  · intro bs max_len hpos hle hall
    rw [ParseHexString, if_neg (by omega),
      if_neg (by rw [hexEncode_length]; omega),
      if_neg (by rw [hexEncode_length]; omega)]
    exact hexLoop_encode bs 0 max_len hall (by omega)
  · intro s max_len hodd
    rw [ParseHexString]
    split_ifs <;> first | rfl | omega
  · intro s max_len c hc hcf
    rw [ParseHexString]
    split_ifs with g1 g2 g3
    · rfl
    · rfl
    · rfl
    · exact hexLoop_bad s 0 max_len (by omega) (by omega) ⟨c, hc, hcf⟩
  · intro s max_len
    rw [ParseHexString, ParseHexString]
    simp only [List.length_map]
    split_ifs <;> first | rfl | exact hexLoop_up s 0 max_len

/-- C7 counterexample: AABB is an even length string over the alphabet,
    yet ParseHexString rejects it when the output capacity is 1, so the
    claim as universally stated fails. -/
theorem C7_counterexample :
    ParseHexString "AABB".data 1 = none ∧
    ("AABB".data).length % 2 = 0 ∧ (∀ c ∈ "AABB".data, isHexChar c = true) := by
  refine ⟨by decide, by decide, by decide⟩

/-- C7 witness: the amended properties evaluated on concrete strings. -/
theorem C7_witness :
    (∃ bs, ParseHexString "0A1b".data 64 = some bs ∧
      hexEncode bs = ("0A1b".data).map upHexChar) ∧
    ParseHexString (hexEncode [10, 27]) 64 = some [10, 27] ∧
    ParseHexString "0A1".data 64 = none ∧
    ParseHexString "0Z".data 64 = none ∧
    ParseHexString (("0a".data).map upHexChar) 64 = ParseHexString "0a".data 64 :=
  ⟨C7_hex_decode_props.1 "0A1b".data 64 (by decide) (by decide) (by decide) (by decide),
    C7_hex_decode_props.2.1 [10, 27] 64 (by decide) (by decide) (by decide),
    C7_hex_decode_props.2.2.1 "0A1".data 64 (by decide),
    C7_hex_decode_props.2.2.2.1 "0Z".data 64 'Z' (by decide) (by decide),
    C7_hex_decode_props.2.2.2.2 "0a".data 64⟩

/- ===== C1: escape run followed by data, evaluated on the code ===== -/

/-- C1: evaluating the code on the claimed scenario refutes the claim: in
    Data mode, after guard silence, the bytes 2B 2B 2B at ticks 1000..1002
    followed immediately by byte 41 at tick 1003 leave escape_detected set,
    so a poll of Module_Mode_IsEscapeDetected at tick 2500 reports a (bogus)
    escape, and the payload stream (GATT writes plus remaining buffer)
    carries only two of the three 2B bytes: the first two are stored at
    receipt and the third is suppressed and never restored. -/
theorem C1_escape_code_bug :
    (Module_Mode_IsEscapeDetected c1Run.1 2500).2 = true ∧
    gattPayload c1Run.2 ++ c1Run.1.data_tx_buffer = [43, 43, 65] := by
  refine ⟨by decide, by decide⟩

/- ===== C2: AT+LIST dispatch and case sensitivity ===== -/

/-- C2 counterexample: the lower case line at+list passes the case
    insensitive AT gate but matches no dispatch entry, because dispatch
    comparisons are case sensitive; with two known devices it produces no
    response at all, not the claimed +LIST listing. -/
theorem C2_counterexample :
    AT_Command_Process env2 0 Module_Mode_InitState "at+list\r\n" =
      (Module_Mode_InitState, []) := by decide

/-- C2 amended: the upper case line AT+LIST with two known devices responds
    +LIST:2, the two +DEV lines, then OK; the lower case variant at+list is
    silently ignored since only the two character AT prefix check is case
    insensitive while command dispatch is case sensitive. -/
theorem C2_list_two_devices (env : Env) (now : Nat) (m : ModeState) (da db : BLE_Device)
    (h : env.devices = [da, db]) :
    AT_Command_Process env now m "AT+LIST\r\n" =
      (m, [.send "+LIST:2\r\n", .send (AT_LIST_devLine 0 da), .send (AT_LIST_devLine 1 db),
        .send "OK\r\n"]) ∧
    AT_Command_Process env now m "at+list\r\n" = (m, []) := by
  constructor
  · have h1 : AT_Command_Process env now m "AT+LIST\r\n" = (m, AT_LIST_Handler env) := rfl
    rw [h1]
    simp only [AT_LIST_Handler, BLE_DeviceManager_GetCount, BLE_DeviceManager_GetDevice, h]
    rfl
  · rfl

/-- C2 witness: the amended statement evaluated in the two device
    environment. -/
theorem C2_witness :
    (AT_Command_Process env2 0 Module_Mode_InitState "AT+LIST\r\n" =
      (Module_Mode_InitState, [.send "+LIST:2\r\n", .send (AT_LIST_devLine 0 dev0),
        .send (AT_LIST_devLine 1 dev1), .send "OK\r\n"])) ∧
    AT_Command_Process env2 0 Module_Mode_InitState "at+list\r\n" =
      (Module_Mode_InitState, []) :=
  C2_list_two_devices env2 0 Module_Mode_InitState dev0 dev1 rfl

/- ===== C3: flush failure behavior ===== -/

theorem flushFuel_empty (f : Nat) (env : Env) (s : ModeState)
    (h : s.data_tx_buffer = []) :
    Module_Mode_FlushTxBuffer_fuel f env s = (s, [], 0) := by
  cases f <;> simp [Module_Mode_FlushTxBuffer_fuel, h]

theorem flushFuel_disconnected (f : Nat) (env : Env) (s : ModeState)
    (hmode : s.current_mode = .MODE_DATA) (hbuf : s.data_tx_buffer ≠ [])
    (hd : ∀ d, BLE_DeviceManager_GetDevice env s.target_dev_idx = some d →
      d.is_connected = false) :
    Module_Mode_FlushTxBuffer_fuel (f + 2) env s =
      (flushDisconnectedState s, [OutEvent.send "+CMDMODE\r\n"], -1) := by
  cases hdd : BLE_DeviceManager_GetDevice env s.target_dev_idx with
  | none =>
    simp [Module_Mode_FlushTxBuffer_fuel, Module_Mode_EnterCommand_fuel, hmode, hbuf, hdd,
      flushFuel_empty, flushDisconnectedState]
  | some d =>
    have hcd := hd d hdd
    simp [Module_Mode_FlushTxBuffer_fuel, Module_Mode_EnterCommand_fuel, hmode, hbuf, hdd,
      hcd, flushFuel_empty, flushDisconnectedState]

theorem flushFuel_write_error (f : Nat) (env : Env) (s : ModeState) (d : BLE_Device)
    (hmode : s.current_mode = .MODE_DATA) (hbuf : s.data_tx_buffer ≠ [])
    (hd : BLE_DeviceManager_GetDevice env s.target_dev_idx = some d)
    (hconn : d.is_connected = true)
    (hret : env.gattWriteRet d.conn_handle s.target_char_handle s.data_tx_buffer ≠ 0) :
    Module_Mode_FlushTxBuffer_fuel (f + 1) env s =
      ({ s with data_tx_buffer := [] },
        [OutEvent.call (.gattWrite d.conn_handle s.target_char_handle s.data_tx_buffer)], -1) := by
  simp [Module_Mode_FlushTxBuffer_fuel, hmode, hbuf, hd, hconn, hret]

/-- C3 amended: for a nonempty data mode buffer, a missing or disconnected
    target makes Module_Mode_FlushTxBuffer clear the buffer and transition
    automatically back to Command mode (emitting +CMDMODE), while a GATT
    write error only clears the buffer and returns failure, leaving the
    mode in Data: the automatic transition happens on disconnection only,
    not on a write error. -/
theorem C3_flush_failure (env : Env) (s : ModeState)
    (hmode : s.current_mode = .MODE_DATA) (hbuf : s.data_tx_buffer ≠ []) :
    ((∀ d, BLE_DeviceManager_GetDevice env s.target_dev_idx = some d →
        d.is_connected = false) →
      (Module_Mode_FlushTxBuffer env s).1.current_mode = .MODE_COMMAND ∧
      (Module_Mode_FlushTxBuffer env s).1.data_tx_buffer = [] ∧
      (Module_Mode_FlushTxBuffer env s).2.1 = [OutEvent.send "+CMDMODE\r\n"] ∧
      (Module_Mode_FlushTxBuffer env s).2.2 = -1) ∧
    (∀ d, BLE_DeviceManager_GetDevice env s.target_dev_idx = some d →
      d.is_connected = true →
      env.gattWriteRet d.conn_handle s.target_char_handle s.data_tx_buffer ≠ 0 →
      (Module_Mode_FlushTxBuffer env s).1.current_mode = .MODE_DATA ∧
      (Module_Mode_FlushTxBuffer env s).1.data_tx_buffer = [] ∧
      (Module_Mode_FlushTxBuffer env s).2.2 = -1) := by
  constructor
  · intro hd
    have hEq : Module_Mode_FlushTxBuffer env s =
        (flushDisconnectedState s, [OutEvent.send "+CMDMODE\r\n"], -1) :=
      flushFuel_disconnected 2 env s hmode hbuf hd
    rw [hEq]
    exact ⟨rfl, rfl, rfl, rfl⟩
  · intro d hd hconn hret
    have hEq : Module_Mode_FlushTxBuffer env s =
        ({ s with data_tx_buffer := [] },
          [OutEvent.call (.gattWrite d.conn_handle s.target_char_handle s.data_tx_buffer)],
          -1) :=
      flushFuel_write_error 3 env s d hmode hbuf hd hconn hret
    rw [hEq]
    exact ⟨hmode, rfl, rfl⟩

/-- C3 counterexample: a concrete connected target with a failing GATT
    write: the buffer is cleared and -1 returned but the mode stays Data,
    refuting the claimed automatic transition to Command mode on a write
    error. -/
theorem C3_counterexample :
    (Module_Mode_FlushTxBuffer c3Env c3S).1.current_mode = .MODE_DATA ∧
    (Module_Mode_FlushTxBuffer c3Env c3S).1.data_tx_buffer = [] ∧
    (Module_Mode_FlushTxBuffer c3Env c3S).2.2 = -1 := by
  refine ⟨by decide, by decide, by decide⟩

/-- C3 witness: the amended statement evaluated at a disconnected target
    and at a failing write. -/
theorem C3_witness :
    ((Module_Mode_FlushTxBuffer c3Env c3S).1.current_mode = .MODE_DATA ∧
      (Module_Mode_FlushTxBuffer c3Env c3S).1.data_tx_buffer = [] ∧
      (Module_Mode_FlushTxBuffer c3Env c3S).2.2 = -1) :=
  (C3_flush_failure c3Env c3S rfl (by decide)).2 dev0 rfl rfl (by decide)

/- ===== C4 continued ===== -/

/-- C4 witness: the byte sequence of the line AT followed by CR, with two
    further bytes arriving before the drain. -/
theorem C4_witness :
    (2 ≤ (feedBytes AT_Command_InitState [65, 84, 13]).at_line_idx ∧
      (feedBytes AT_Command_InitState [65, 84, 13]).at_line_buf
        (feedBytes AT_Command_InitState [65, 84, 13]).at_line_idx = 0) ∧
    (feedBytes (feedBytes AT_Command_InitState [65, 84, 13]) [66, 13]).at_cmd_ready = true ∧
    (feedBytes (feedBytes AT_Command_InitState [65, 84, 13]) [66, 13]).at_line_buf =
      (feedBytes AT_Command_InitState [65, 84, 13]).at_line_buf ∧
    (feedBytes (feedBytes AT_Command_InitState [65, 84, 13]) [66, 13]).at_line_idx =
      (feedBytes AT_Command_InitState [65, 84, 13]).at_line_idx :=
  C4_ready_line_invariant [65, 84, 13] [66, 13] (by decide)

/- ===== C8: the data mode transmit length never exceeds the buffer ===== -/

theorem flushFuel_notdata (f : Nat) (env : Env) (s : ModeState)
    (hbuf : s.data_tx_buffer ≠ []) (hmode : s.current_mode ≠ Operation_Mode.MODE_DATA) :
    Module_Mode_FlushTxBuffer_fuel (f + 1) env s = ({ s with data_tx_buffer := [] }, [], 0) := by
  simp [Module_Mode_FlushTxBuffer_fuel, hbuf, hmode]

theorem flushFuel_connected (f : Nat) (env : Env) (s : ModeState) (d : BLE_Device)
    (hbuf : s.data_tx_buffer ≠ []) (hmode : s.current_mode = Operation_Mode.MODE_DATA)
    (hd : BLE_DeviceManager_GetDevice env s.target_dev_idx = some d)
    (hc : d.is_connected = true) :
    Module_Mode_FlushTxBuffer_fuel (f + 1) env s =
      ({ s with data_tx_buffer := [] },
        [OutEvent.call (.gattWrite d.conn_handle s.target_char_handle s.data_tx_buffer)],
        if env.gattWriteRet d.conn_handle s.target_char_handle s.data_tx_buffer = 0 then 0
        else -1) := by
  have hlen : ¬ s.data_tx_buffer.length = 0 := by
    simpa [List.length_eq_zero] using hbuf
  have hnd : ¬ s.current_mode ≠ Operation_Mode.MODE_DATA := by simp [hmode]
  have hcn : ¬ ¬ d.is_connected = true := by simp [hc]
  simp only [Module_Mode_FlushTxBuffer_fuel, if_neg hlen, if_neg hnd, hd, if_neg hcn]
  split_ifs <;> rfl

theorem flush_result_buffer (env : Env) (s : ModeState) :
    (Module_Mode_FlushTxBuffer env s).1.data_tx_buffer = [] ∨
      ((Module_Mode_FlushTxBuffer env s).1 = s ∧ s.data_tx_buffer = []) := by
  by_cases hbuf : s.data_tx_buffer = []
  · right
    refine ⟨?_, hbuf⟩
    show (Module_Mode_FlushTxBuffer_fuel 4 env s).1 = s
    rw [flushFuel_empty 4 env s hbuf]
  · left
    by_cases hmode : s.current_mode = Operation_Mode.MODE_DATA
    · cases hd : BLE_DeviceManager_GetDevice env s.target_dev_idx with
      | none =>
        have hrw := flushFuel_disconnected 2 env s hmode hbuf
          (fun d2 hdd => by rw [hd] at hdd; cases hdd)
        show (Module_Mode_FlushTxBuffer_fuel (2 + 2) env s).1.data_tx_buffer = []
        rw [hrw]
        rfl
      | some d =>
        by_cases hc : d.is_connected = true
        · have hrw := flushFuel_connected 3 env s d hbuf hmode hd hc
          show (Module_Mode_FlushTxBuffer_fuel (3 + 1) env s).1.data_tx_buffer = []
          rw [hrw]
        · have hc2 : d.is_connected = false := by
            cases hcc : d.is_connected
            · rfl
            · exact absurd hcc hc
          have hrw := flushFuel_disconnected 2 env s hmode hbuf
            (fun d2 hdd => by
              rw [hd] at hdd
              injection hdd with hh
              rw [← hh]
              exact hc2)
          show (Module_Mode_FlushTxBuffer_fuel (2 + 2) env s).1.data_tx_buffer = []
          rw [hrw]
          rfl
    · have hrw := flushFuel_notdata 3 env s hbuf hmode
      show (Module_Mode_FlushTxBuffer_fuel (3 + 1) env s).1.data_tx_buffer = []
      rw [hrw]

theorem flush_buffer_le (env : Env) (s : ModeState) (n : Nat)
    (h : s.data_tx_buffer.length ≤ n) :
    (Module_Mode_FlushTxBuffer env s).1.data_tx_buffer.length ≤ n := by
  rcases flush_result_buffer env s with hf | ⟨hf, -⟩
  · rw [hf]; simp
  · rw [hf]; exact h

theorem dataByteTail_len (env : Env) (s : ModeState) (now byte tsl : Nat) :
    (dataByteTail env s now byte tsl).1.data_tx_buffer.length ≤ DATA_TX_BUFFER_SIZE := by
  have hflushed : ((Module_Mode_FlushTxBuffer env s).1.data_tx_buffer ++ [byte]).length ≤
      DATA_TX_BUFFER_SIZE := by
    rcases flush_result_buffer env s with hf | ⟨hf1, hf2⟩
    · rw [hf]; simp [DATA_TX_BUFFER_SIZE]
    · rw [hf1, hf2]; simp [DATA_TX_BUFFER_SIZE]
  simp only [dataByteTail]
  split_ifs with h1 h2 h3
  · refine flush_buffer_le env _ _ ?_
    simp [DATA_TX_BUFFER_SIZE] at h1 ⊢
    omega
  · simp [DATA_TX_BUFFER_SIZE] at h1 ⊢
    omega
  · refine flush_buffer_le env _ _ ?_
    simp [DATA_TX_BUFFER_SIZE] at hflushed ⊢
    omega
  · simp [DATA_TX_BUFFER_SIZE] at hflushed ⊢
    omega

theorem processDataByte_len (env : Env) (s : ModeState) (now byte : Nat)
    (h : s.data_tx_buffer.length ≤ DATA_TX_BUFFER_SIZE) :
    (Module_Mode_ProcessDataByte env s now byte).1.data_tx_buffer.length ≤
      DATA_TX_BUFFER_SIZE := by
  unfold Module_Mode_ProcessDataByte
  dsimp only
  split_ifs <;>
    first
      | simpa using h
      | apply dataByteTail_len

/-- C8: over every sequence of Module_Mode_ProcessDataByte and
    Module_Mode_FlushTxBuffer calls from the initial state, the data mode
    transmit length never exceeds DATA_TX_BUFFER_SIZE (512): every append
    path is bounds guarded and a full buffer is flushed (emptying it)
    before the new byte is stored. -/
theorem C8_tx_len_bounded (env : Env) (ops : List ModeOp) :
    (runModeOps env ops Module_Mode_InitState).data_tx_buffer.length ≤
      DATA_TX_BUFFER_SIZE := by
  have main : ∀ (ops2 : List ModeOp) (s : ModeState),
      s.data_tx_buffer.length ≤ DATA_TX_BUFFER_SIZE →
      (runModeOps env ops2 s).data_tx_buffer.length ≤ DATA_TX_BUFFER_SIZE := by
    intro ops2
    induction ops2 with
    | nil => exact fun s h => h
    | cons op rest ih =>
      intro s h
      cases op with
      | procByte now byte => exact ih _ (processDataByte_len env s now byte h)
      | flush => exact ih _ (flush_buffer_le env s _ h)
  exact main ops Module_Mode_InitState (by simp [Module_Mode_InitState, DATA_TX_BUFFER_SIZE])

/- ===== C10: a zero characteristic handle is rejected ===== -/

theorem parseUInt16_loop_overflow : ∀ (s : List Char) (val : Nat),
    val ≤ 0xFFFF → (∀ c ∈ s, 48 ≤ c.toNat ∧ c.toNat ≤ 57) →
    0xFFFF < s.foldl (fun a c => a * 10 + (c.toNat - 48)) val →
    ParseUInt16_loop s val = 0
  | [], val, hval, _, hbig => by
    simp only [List.foldl_nil] at hbig
    exact absurd hbig (by omega)
  | c :: cs, val, hval, hall, hbig => by
    have hc := hall c (List.mem_cons_self c cs)
    simp only [ParseUInt16_loop, if_pos hc]
    by_cases hov : val * 10 + (c.toNat - 48) > 0xFFFF
    · rw [if_pos hov]
    · rw [if_neg hov]
      exact parseUInt16_loop_overflow cs _ (by omega)
        (fun x hx => hall x (List.mem_cons_of_mem c hx))
        (by simpa using hbig)

/-- C10: for AT+READ, AT+WRITE and AT+DATAMODE, whenever ParseUInt16 yields
    0 on the characteristic handle field (or the comma before it is
    missing), the dispatcher answers exactly ERROR without any collaborator
    call and without touching the mode state; and ParseUInt16 yields 0 on
    the literal 0, on an empty field, on a field not starting with a digit
    and on any all digit field denoting a value above 65535. -/
theorem C10_handle_zero_rejected :
    (∀ (env : Env) (now : Nat) (m : ModeState) (line : String),
      (trimmedCmd line).take 8 = "AT+READ=".data →
      (∀ p2, SkipToComma ((trimmedCmd line).drop 8) = some p2 → ParseUInt16 p2 = 0) →
      AT_Command_Process env now m line = (m, [OutEvent.send "ERROR\r\n"])) ∧
    (∀ (env : Env) (now : Nat) (m : ModeState) (line : String),
      (trimmedCmd line).take 9 = "AT+WRITE=".data →
      (∀ p2, SkipToComma ((trimmedCmd line).drop 9) = some p2 → ParseUInt16 p2 = 0) →
      AT_Command_Process env now m line = (m, [OutEvent.send "ERROR\r\n"])) ∧
    (∀ (env : Env) (now : Nat) (m : ModeState) (line : String),
      (trimmedCmd line).take 12 = "AT+DATAMODE=".data →
      (∀ p2, SkipToComma ((trimmedCmd line).drop 12) = some p2 → ParseUInt16 p2 = 0) →
      AT_Command_Process env now m line = (m, [OutEvent.send "ERROR\r\n"])) ∧
    ParseUInt16 "0".data = 0 ∧
    ParseUInt16 [] = 0 ∧
    (∀ (c : Char) (cs : List Char), ¬ (48 ≤ c.toNat ∧ c.toNat ≤ 57) →
      ParseUInt16 (c :: cs) = 0) ∧
    (∀ s : List Char, (∀ c ∈ s, 48 ≤ c.toNat ∧ c.toNat ≤ 57) →
      0xFFFF < decimalValue s → ParseUInt16 s = 0) := by
  refine ⟨?_, ?_, ?_, by decide, by decide, ?_, ?_⟩
  · intro env now m line h8 hz
    unfold trimmedCmd at h8 hz
    have hline : line ≠ "" := by
      intro h0
      rw [h0] at h8
      exact absurd h8 (by decide)
    obtain ⟨rest, hrest⟩ : ∃ r, (trimEnd (line.data.take (AT_CMD_MAX_LEN - 1))).drop 8 = r :=
      ⟨_, rfl⟩
    have hsplit := List.take_append_drop 8 (trimEnd (line.data.take (AT_CMD_MAX_LEN - 1)))
    rw [h8, hrest] at hsplit
    rw [hrest] at hz
    unfold AT_Command_Process
    rw [if_neg hline]
    dsimp only
    rw [← hsplit]
    show AT_dispatch env now m ("AT+READ=".data ++ rest) = (m, [OutEvent.send "ERROR\r\n"])
    have hred : AT_dispatch env now m ("AT+READ=".data ++ rest) =
        (match SkipToComma rest with
          | some p2 =>
            if ParseUInt8 rest ≠ 0xFF then
              if ParseUInt16 p2 > 0 then
                (m, AT_READ_Handler env (ParseUInt8 rest) (ParseUInt16 p2))
              else (m, [OutEvent.send "ERROR\r\n"])
            else (m, [OutEvent.send "ERROR\r\n"])
          | none => (m, [OutEvent.send "ERROR\r\n"])) := rfl
    rw [hred]
    cases hsk : SkipToComma rest with
    | none => rfl
    | some p2 => simp [hz p2 hsk]
  · intro env now m line h9 hz
    unfold trimmedCmd at h9 hz
    have hline : line ≠ "" := by
      intro h0
      rw [h0] at h9
      exact absurd h9 (by decide)
    obtain ⟨rest, hrest⟩ : ∃ r, (trimEnd (line.data.take (AT_CMD_MAX_LEN - 1))).drop 9 = r :=
      ⟨_, rfl⟩
    have hsplit := List.take_append_drop 9 (trimEnd (line.data.take (AT_CMD_MAX_LEN - 1)))
    rw [h9, hrest] at hsplit
    rw [hrest] at hz
    unfold AT_Command_Process
    rw [if_neg hline]
    dsimp only
    rw [← hsplit]
    show AT_dispatch env now m ("AT+WRITE=".data ++ rest) = (m, [OutEvent.send "ERROR\r\n"])
    have hred : AT_dispatch env now m ("AT+WRITE=".data ++ rest) =
        (match SkipToComma rest with
          | some p2 =>
            if ParseUInt8 rest ≠ 0xFF then
              match SkipToComma p2 with
              | some p3 =>
                if ParseUInt16 p2 > 0 ∧ p3 ≠ [] then
                  (m, AT_WRITE_Handler env (ParseUInt8 rest) (ParseUInt16 p2) p3)
                else (m, [OutEvent.send "ERROR\r\n"])
              | none => (m, [OutEvent.send "ERROR\r\n"])
            else (m, [OutEvent.send "ERROR\r\n"])
          | none => (m, [OutEvent.send "ERROR\r\n"])) := rfl
    rw [hred]
    cases hsk : SkipToComma rest with
    | none => rfl
    | some p2 =>
      cases hsk2 : SkipToComma p2 with
      | none => simp [hsk2]
      | some p3 => simp [hsk2, hz p2 hsk]
  · intro env now m line h12 hz
    unfold trimmedCmd at h12 hz
    have hline : line ≠ "" := by
      intro h0
      rw [h0] at h12
      exact absurd h12 (by decide)
    obtain ⟨rest, hrest⟩ : ∃ r, (trimEnd (line.data.take (AT_CMD_MAX_LEN - 1))).drop 12 = r :=
      ⟨_, rfl⟩
    have hsplit := List.take_append_drop 12 (trimEnd (line.data.take (AT_CMD_MAX_LEN - 1)))
    rw [h12, hrest] at hsplit
    rw [hrest] at hz
    unfold AT_Command_Process
    rw [if_neg hline]
    dsimp only
    rw [← hsplit]
    show AT_dispatch env now m ("AT+DATAMODE=".data ++ rest) = (m, [OutEvent.send "ERROR\r\n"])
    have hred : AT_dispatch env now m ("AT+DATAMODE=".data ++ rest) =
        (match SkipToComma rest with
          | some p2 =>
            if ParseUInt8 rest ≠ 0xFF then
              if ParseUInt16 p2 > 0 then
                AT_DATAMODE_Handler env m now (ParseUInt8 rest) (ParseUInt16 p2)
              else (m, [OutEvent.send "ERROR\r\n"])
            else (m, [OutEvent.send "ERROR\r\n"])
          | none => (m, [OutEvent.send "ERROR\r\n"])) := rfl
    rw [hred]
    cases hsk : SkipToComma rest with
    | none => rfl
    | some p2 => simp [hz p2 hsk]
  · intro c cs h
    simp [ParseUInt16, ParseUInt16_loop, h]
  · intro s hall hbig
    cases s with
    | nil => exact absurd hbig (by simp [decimalValue])
    | cons c cs =>
      rw [ParseUInt16, if_neg (by simp)]
      exact parseUInt16_loop_overflow (c :: cs) 0 (by omega) hall hbig

/-- C10 witness: the three commands with a handle field of 0 and the
    ParseUInt16 sentinel facts on concrete fields. -/
theorem C10_witness :
    AT_Command_Process env2 0 Module_Mode_InitState "AT+READ=1,0\r\n" =
      (Module_Mode_InitState, [OutEvent.send "ERROR\r\n"]) ∧
    AT_Command_Process env2 0 Module_Mode_InitState "AT+WRITE=1,0,AB\r\n" =
      (Module_Mode_InitState, [OutEvent.send "ERROR\r\n"]) ∧
    AT_Command_Process env2 0 Module_Mode_InitState "AT+DATAMODE=0,0\r\n" =
      (Module_Mode_InitState, [OutEvent.send "ERROR\r\n"]) ∧
    ParseUInt16 "x1".data = 0 ∧
    ParseUInt16 "70000".data = 0 := by
  refine ⟨?_, ?_, ?_, ?_, ?_⟩
  · refine C10_handle_zero_rejected.1 env2 0 Module_Mode_InitState "AT+READ=1,0\r\n"
      (by decide) ?_
    intro p2 hp
    rw [show SkipToComma ((trimmedCmd "AT+READ=1,0\r\n").drop 8) = some ['0'] from by decide] at hp
    rw [← Option.some.inj hp]
    decide
  · refine C10_handle_zero_rejected.2.1 env2 0 Module_Mode_InitState "AT+WRITE=1,0,AB\r\n"
      (by decide) ?_
    intro p2 hp
    rw [show SkipToComma ((trimmedCmd "AT+WRITE=1,0,AB\r\n").drop 9) =
      some ('0' :: ',' :: 'A' :: 'B' :: []) from by decide] at hp
    rw [← Option.some.inj hp]
    decide
  · refine C10_handle_zero_rejected.2.2.1 env2 0 Module_Mode_InitState "AT+DATAMODE=0,0\r\n"
      (by decide) ?_
    intro p2 hp
    rw [show SkipToComma ((trimmedCmd "AT+DATAMODE=0,0\r\n").drop 12) = some ['0'] from by decide] at hp
    rw [← Option.some.inj hp]
    decide
  · exact C10_handle_zero_rejected.2.2.2.2.2.1 'x' "1".data (by decide)
  · exact C10_handle_zero_rejected.2.2.2.2.2.2 "70000".data (by decide) (by decide)

end BLEGW
